import Mathlib

set_option linter.unusedVariables false

/-
Verification of the Ready Trader Go autotrader (src/autotrader.cc).

The engine is embedded shallowly: each C++ message handler becomes a pure
Lean function from the member-variable state (and the handler's arguments)
to the new state paired with the list of outbound requests the handler
emits (SendInsertOrder / SendCancelOrder / SendHedgeOrder calls, in order).
Logging is ignored.  The top-of-book arrays are modelled as functions
from level index to value; the handlers only ever read index 0, exactly
as the source does.
-/

namespace RTG

inductive Instrument
  | ETF
  | FUTURE
deriving DecidableEq, Repr

inductive Side
  | BUY
  | SELL
deriving DecidableEq, Repr

inductive Lifespan
  | FILL_AND_KILL
  | GOOD_FOR_DAY
deriving DecidableEq, Repr

/-- Outbound requests the autotrader can send to the exchange layer:
SendInsertOrder, SendCancelOrder and SendHedgeOrder. -/
inductive Request
  | insertOrder (clientOrderId : Nat) (side : Side) (price : Nat) (volume : Nat)
      (lifespan : Lifespan)
  | cancelOrder (clientOrderId : Nat)
  | hedgeOrder (clientOrderId : Nat) (side : Side) (price : Nat) (volume : Nat)
deriving DecidableEq, Repr

/-- constexpr int POSITION_LIMIT = 100 (autotrader.cc line 31). -/
def POSITION_LIMIT : Int := 100

/-- constexpr int LOT_SIZE = 10 (autotrader.cc line 30). -/
def LOT_SIZE : Nat := 10

/-- constexpr int TICK_SIZE_IN_CENTS = 100 (autotrader.cc line 32). -/
def TICK_SIZE_IN_CENTS : Nat := 100

/-- The member variables of class AutoTrader, as used by autotrader.cc:
positions, the four tracked identifier slots, the recorded quote and hedge
prices, the cached ETF top of book, the two message-id counters and the
four id-tracking sets (std::unordered_set, modelled as duplicate-free
lists via setInsert / setErase). -/
structure AutoTraderState where
  mPosition : Int
  mHPosition : Int
  mAskId : Nat
  mBidId : Nat
  mHAskId : Nat
  mHBidId : Nat
  mAskPrice : Nat
  mBidPrice : Nat
  mHAskPrice : Nat
  mHBidPrice : Nat
  ETFbestbid : Nat
  ETFbestask : Nat
  ETFbidvol : Nat
  ETFaskvol : Nat
  mNextMessageId : Nat
  mHNextMessageId : Nat
  mAsks : List Nat
  mBids : List Nat
  mHAsks : List Nat
  mHBids : List Nat
deriving DecidableEq, Repr

/-- std::unordered_set::emplace — inserts the element if it is not present. -/
def setInsert (x : Nat) (l : List Nat) : List Nat :=
  if x ∈ l then l else x :: l

/-- std::unordered_set::erase — removes the element if present. -/
def setErase (x : Nat) (l : List Nat) : List Nat :=
  l.filter (fun y => y ≠ x)

/-- Modelled from the spec: the header autotrader.h declaring the member
fields and their initial values is not under src/.  Per the spec's data
model (section 3), identifier slots hold 0 when no order is tracked,
Position and Hedge Position start at zero, the tracking sets start empty,
and the two message-id allocators are monotonically increasing counters
whose fresh identifiers are nonzero (so they start at 1); cached prices
and volumes start at 0 (no book seen yet). -/
def initState : AutoTraderState :=
  { mPosition := 0
    mHPosition := 0
    mAskId := 0
    mBidId := 0
    mHAskId := 0
    mHBidId := 0
    mAskPrice := 0
    mBidPrice := 0
    mHAskPrice := 0
    mHBidPrice := 0
    ETFbestbid := 0
    ETFbestask := 0
    ETFbidvol := 0
    ETFaskvol := 0
    mNextMessageId := 1
    mHNextMessageId := 1
    mAsks := []
    mBids := []
    mHAsks := []
    mHBids := [] }

/-- AutoTrader::HedgeFilledMessageHandler (autotrader.cc lines 56-71). -/
def HedgeFilledMessageHandler (s : AutoTraderState) (clientOrderId price volume : Nat) :
    AutoTraderState × List Request :=
  if clientOrderId ∈ s.mHBids then
    ({ s with mHPosition := s.mHPosition - (volume : Int) }, [])
  else if clientOrderId ∈ s.mHAsks then
    ({ s with mHPosition := s.mHPosition + (volume : Int) }, [])
  else
    (s, [])

/-- Stale-ask cancellation block of AutoTrader::OrderBookMessageHandler
(autotrader.cc lines 106-111). -/
def cancelStaleAsk (s : AutoTraderState) : AutoTraderState × List Request :=
  if s.mAskId ≠ 0 ∧ s.ETFbestbid ≠ 0 ∧ s.ETFbestbid ≠ s.mBidPrice then
    ({ s with mAskId := 0, mHBidId := 0 }, [Request.cancelOrder s.mAskId])
  else
    (s, [])

/-- Stale-bid cancellation block of AutoTrader::OrderBookMessageHandler
(autotrader.cc lines 112-117). -/
def cancelStaleBid (s : AutoTraderState) : AutoTraderState × List Request :=
  if s.mBidId ≠ 0 ∧ s.ETFbestask ≠ 0 ∧ s.ETFbestask ≠ s.mAskPrice then
    ({ s with mBidId := 0, mHAskId := 0 }, [Request.cancelOrder s.mBidId])
  else
    (s, [])

/-- Sell-ETF pairs-trading block of AutoTrader::OrderBookMessageHandler
(autotrader.cc lines 120-133); the hedge send there is commented out in
the source, so only the insert is emitted. -/
def tryQuoteSell (s : AutoTraderState) (askPrices askVolumes : Nat → Nat) :
    AutoTraderState × List Request :=
  if s.mBidId = 0 ∧ s.mHAskId = 0 ∧ s.mHPosition > -POSITION_LIMIT ∧
      s.mPosition < POSITION_LIMIT ∧ s.ETFbestbid > askPrices 0 then
    ({ s with
        mBidId := s.mNextMessageId
        mNextMessageId := s.mNextMessageId + 1
        mHAskId := s.mHNextMessageId
        mHNextMessageId := s.mHNextMessageId + 1
        mBidPrice := s.ETFbestbid
        mHAskPrice := askPrices 0
        mBids := setInsert s.mNextMessageId s.mBids },
     [Request.insertOrder s.mNextMessageId Side.SELL s.ETFbestbid
        (min s.ETFbidvol (askVolumes 0)) Lifespan.GOOD_FOR_DAY])
  else
    (s, [])

/-- Buy-ETF pairs-trading block of AutoTrader::OrderBookMessageHandler
(autotrader.cc lines 134-148); the hedge send there is commented out in
the source, so only the insert is emitted. -/
def tryQuoteBuy (s : AutoTraderState) (bidPrices bidVolumes : Nat → Nat) :
    AutoTraderState × List Request :=
  if s.mAskId = 0 ∧ s.mHBidId = 0 ∧ bidPrices 0 > s.ETFbestask ∧
      s.mPosition < POSITION_LIMIT ∧ s.mHPosition > -POSITION_LIMIT then
    ({ s with
        mAskId := s.mNextMessageId
        mNextMessageId := s.mNextMessageId + 1
        mHBidId := s.mHNextMessageId
        mHNextMessageId := s.mHNextMessageId + 1
        mAskPrice := s.ETFbestask
        mHBidPrice := bidPrices 0
        mAsks := setInsert s.mNextMessageId s.mAsks },
     [Request.insertOrder s.mNextMessageId Side.BUY s.ETFbestask
        (min s.ETFaskvol (bidVolumes 0)) Lifespan.GOOD_FOR_DAY])
  else
    (s, [])

/-- AutoTrader::OrderBookMessageHandler (autotrader.cc lines 73-153):
on an ETF update, store the top of book; on a FUTURE update, run the two
stale-order cancellation blocks and then the two pairs-trading blocks, in
source order, concatenating the requests they emit. -/
def OrderBookMessageHandler (s : AutoTraderState) (instrument : Instrument)
    (sequenceNumber : Nat) (askPrices askVolumes bidPrices bidVolumes : Nat → Nat) :
    AutoTraderState × List Request :=
  let s0 :=
    if instrument = Instrument.ETF then
      { s with
          ETFbestbid := bidPrices 0
          ETFbestask := askPrices 0
          ETFbidvol := bidVolumes 0
          ETFaskvol := askVolumes 0 }
    else s
  if instrument = Instrument.FUTURE then
    let p1 := cancelStaleAsk s0
    let p2 := cancelStaleBid p1.1
    let p3 := tryQuoteSell p2.1 askPrices askVolumes
    let p4 := tryQuoteBuy p3.1 bidPrices bidVolumes
    (p4.1, p1.2 ++ p2.2 ++ p3.2 ++ p4.2)
  else
    (s0, [])

/-- AutoTrader::OrderFilledMessageHandler (autotrader.cc lines 155-173). -/
def OrderFilledMessageHandler (s : AutoTraderState) (clientOrderId price volume : Nat) :
    AutoTraderState × List Request :=
  if clientOrderId ∈ s.mBids then
    ({ s with
        mPosition := s.mPosition - (volume : Int)
        mHAsks := setInsert s.mHAskId s.mHAsks },
     [Request.hedgeOrder s.mHAskId Side.BUY s.mHAskPrice volume])
  else if clientOrderId ∈ s.mAsks then
    ({ s with
        mPosition := s.mPosition + (volume : Int)
        mHBids := setInsert s.mHBidId s.mHBids },
     [Request.hedgeOrder s.mHBidId Side.SELL s.mHBidPrice volume])
  else
    (s, [])

/-- The if/else-if chain of AutoTrader::OrderStatusMessageHandler
(autotrader.cc lines 185-206): clear the first identifier slot, in the
order mAskId, mBidId, mHAskId, mHBidId, that equals the reported id. -/
def clearMatchingId (s : AutoTraderState) (clientOrderId : Nat) : AutoTraderState :=
  if clientOrderId = s.mAskId then { s with mAskId := 0 }
  else if clientOrderId = s.mBidId then { s with mBidId := 0 }
  else if clientOrderId = s.mHAskId then { s with mHAskId := 0 }
  else if clientOrderId = s.mHBidId then { s with mHBidId := 0 }
  else s

/-- AutoTrader::OrderStatusMessageHandler (autotrader.cc lines 175-215). -/
def OrderStatusMessageHandler (s : AutoTraderState)
    (clientOrderId fillVolume remainingVolume : Nat) (fees : Int) :
    AutoTraderState × List Request :=
  if remainingVolume = 0 then
    let s1 := clearMatchingId s clientOrderId
    ({ s1 with
        mAsks := setErase clientOrderId s1.mAsks
        mBids := setErase clientOrderId s1.mBids
        mHAsks := setErase clientOrderId s1.mHAsks
        mHBids := setErase clientOrderId s1.mHBids }, [])
  else
    (s, [])

/-- AutoTrader::ErrorMessageHandler (autotrader.cc lines 46-54): for a
nonzero id tracked in either quote set, synthesize a terminal status. -/
def ErrorMessageHandler (s : AutoTraderState) (clientOrderId : Nat) :
    AutoTraderState × List Request :=
  if clientOrderId ≠ 0 ∧ (clientOrderId ∈ s.mAsks ∨ clientOrderId ∈ s.mBids) then
    OrderStatusMessageHandler s clientOrderId 0 0 0
  else
    (s, [])

/-- AutoTrader::TradeTicksMessageHandler (autotrader.cc lines 217-230):
logging only, no state change and no request. -/
def TradeTicksMessageHandler (s : AutoTraderState) (instrument : Instrument)
    (sequenceNumber : Nat) (askPrices askVolumes bidPrices bidVolumes : Nat → Nat) :
    AutoTraderState × List Request :=
  (s, [])

/-- One inbound event delivered to the autotrader by the transport layer. -/
inductive Event
  | orderBook (instrument : Instrument) (sequenceNumber : Nat)
      (askPrices askVolumes bidPrices bidVolumes : Nat → Nat)
  | orderFilled (clientOrderId price volume : Nat)
  | hedgeFilled (clientOrderId price volume : Nat)
  | orderStatus (clientOrderId fillVolume remainingVolume : Nat) (fees : Int)
  | errorMessage (clientOrderId : Nat)
  | tradeTicks (instrument : Instrument) (sequenceNumber : Nat)
      (askPrices askVolumes bidPrices bidVolumes : Nat → Nat)

/-- Dispatch one event to its handler. -/
def step (s : AutoTraderState) : Event → AutoTraderState × List Request
  | .orderBook instr seq aP aV bP bV => OrderBookMessageHandler s instr seq aP aV bP bV
  | .orderFilled id p v => OrderFilledMessageHandler s id p v
  | .hedgeFilled id p v => HedgeFilledMessageHandler s id p v
  | .orderStatus id fv rv fees => OrderStatusMessageHandler s id fv rv fees
  | .errorMessage id => ErrorMessageHandler s id
  | .tradeTicks instr seq aP aV bP bV => TradeTicksMessageHandler s instr seq aP aV bP bV

/-- Process a sequence of events, one at a time and to completion,
accumulating all outbound requests in order. -/
def runEvents (s : AutoTraderState) : List Event → AutoTraderState × List Request
  | [] => (s, [])
  | e :: rest =>
    let p := step s e
    let q := runEvents p.1 rest
    (q.1, p.2 ++ q.2)

/-- A constant top-of-book array: every level holds the same value.
Used to build concrete events (only level 0 is ever read). -/
def constArr (n : Nat) : Nat → Nat := fun _ => n

/-- The client order ids of the insert requests in a request list, in order. -/
def insertIds : List Request → List Nat
  | [] => []
  | Request.insertOrder id _ _ _ _ :: rest => id :: insertIds rest
  | _ :: rest => insertIds rest

/-- The client order ids of the hedge requests in a request list, in order. -/
def hedgeIds : List Request → List Nat
  | [] => []
  | Request.hedgeOrder id _ _ _ :: rest => id :: hedgeIds rest
  | _ :: rest => hedgeIds rest

/-- Whether a request is a SendHedgeOrder. -/
def isHedgeOrder : Request → Bool
  | Request.hedgeOrder _ _ _ _ => true
  | _ => false

/-- Whether a request is a SendCancelOrder. -/
def isCancelOrder : Request → Bool
  | Request.cancelOrder _ => true
  | _ => false

/-- Whether a request is a SendInsertOrder. -/
def isInsertOrder : Request → Bool
  | Request.insertOrder _ _ _ _ _ => true
  | _ => false

/-- An ETF book update with best ask 2300 x 200 and best bid 2200 x 200. -/
def evETFbig : Event :=
  Event.orderBook Instrument.ETF 1 (constArr 2300) (constArr 200) (constArr 2200) (constArr 200)

/-- A FUTURE book update with best ask 2100 x 200 and best bid 2000 x 200. -/
def evFUTbig : Event :=
  Event.orderBook Instrument.FUTURE 2 (constArr 2100) (constArr 200) (constArr 2000) (constArr 200)

/-- ETF bid 2200 crosses FUTURE ask 2100, so the engine sells 200 lots of ETF
(order id 1); the subsequent 200-lot fill takes the position to -200. -/
def breachEvents : List Event :=
  [evETFbig, evFUTbig, Event.orderFilled 1 2200 200]

/-- An ETF book update with best ask 2300 x 5 and best bid 2200 x 5. -/
def evETFquote : Event :=
  Event.orderBook Instrument.ETF 1 (constArr 2300) (constArr 5) (constArr 2200) (constArr 5)

/-- A FUTURE book update with best ask 2100 x 5 and best bid 2000 x 5. -/
def evFUTquote : Event :=
  Event.orderBook Instrument.FUTURE 2 (constArr 2100) (constArr 5) (constArr 2000) (constArr 5)

/-- Places a sell quote: order id 1 at 2200 for 5 lots, recorded hedge ask
price 2100, hedge ask id 1. -/
def quoteEvents : List Event :=
  [evETFquote, evFUTquote]

/-- An ETF book update whose bid side is empty (best bid 0) and whose best
ask is 2150 x 5. -/
def evETFaskonly : Event :=
  Event.orderBook Instrument.ETF 1 (constArr 2150) (constArr 5) (constArr 0) (constArr 0)

/-- A FUTURE book update with best bid 2160 x 5 and best ask 2100 x 5. -/
def evFUTbid2160 : Event :=
  Event.orderBook Instrument.FUTURE 2 (constArr 2100) (constArr 5) (constArr 2160) (constArr 5)

/-- Places a buy quote on the ETF: order id 1 at 2150 for 5 lots, recorded
hedge bid price 2160, hedge bid id 1. -/
def askQuoteEvents : List Event :=
  [evETFaskonly, evFUTbid2160]

/-- A FUTURE book update with best bid 2180 x 5 and best ask 2100 x 5. -/
def evFUTbid2180 : Event :=
  Event.orderBook Instrument.FUTURE 3 (constArr 2100) (constArr 5) (constArr 2180) (constArr 5)

/-- A FUTURE book update with best ask 999 x 7 and best bid 0 x 3. -/
def evFUTodd : Event :=
  Event.orderBook Instrument.FUTURE 1 (constArr 999) (constArr 7) (constArr 0) (constArr 3)

/-- The engine state after processing only evETFquote: ETF top of book
cached (bid 2200 x 5, ask 2300 x 5), no orders yet. -/
def scen1State : AutoTraderState := (runEvents initState [evETFquote]).1

/-- The engine state after processing quoteEvents: sell quote 1 at 2200
for 5 lots is tracked in mBids, mHAskId = 1, mHAskPrice = 2100. -/
def postQuoteState : AutoTraderState := (runEvents initState quoteEvents).1

/-- The engine state after askQuoteEvents and a further ETF update
(bid 2200 x 5, ask 2300 x 5): a working buy order (mAskId = 1) with a
nonzero cached ETF best bid differing from mBidPrice = 0. -/
def staleAskState : AutoTraderState :=
  (runEvents initState (askQuoteEvents ++ [evETFquote])).1

/-- Bookkeeping invariant of the two quote-tracking sets: every tracked id
is below the next fresh message id, and no id is tracked on both sides. -/
def QuoteSetsInv (s : AutoTraderState) : Prop :=
  (∀ x ∈ s.mBids, x < s.mNextMessageId) ∧
  (∀ x ∈ s.mAsks, x < s.mNextMessageId) ∧
  (∀ x ∈ s.mBids, x ∉ s.mAsks)

/-- Freshness of the insert-order ids emitted by a transition from state s
to the state-output pair p: the message-id counter never decreases, every
emitted insert id lies in the window [old counter, new counter), and the
emitted insert ids are strictly increasing. -/
def InsertIdsOK (s : AutoTraderState) (p : AutoTraderState × List Request) : Prop :=
  s.mNextMessageId ≤ p.1.mNextMessageId ∧
  (∀ id ∈ insertIds p.2, s.mNextMessageId ≤ id ∧ id < p.1.mNextMessageId) ∧
  List.Pairwise (fun a b => a < b) (insertIds p.2)

theorem mem_setInsert_self (x : Nat) (l : List Nat) : x ∈ setInsert x l := by
  unfold setInsert
  split
  · assumption
  · exact List.mem_cons_self x l

theorem mem_setInsert_of_mem (x y : Nat) (l : List Nat) (h : y ∈ l) :
    y ∈ setInsert x l := by
  unfold setInsert
  split
  · exact h
  · exact List.mem_cons_of_mem x h

theorem mem_setInsert (x y : Nat) (l : List Nat) :
    y ∈ setInsert x l ↔ y = x ∨ y ∈ l := by
  unfold setInsert
  split
  · constructor
    · exact Or.inr
    · rintro (rfl | h)
      · assumption
      · exact h
  · exact List.mem_cons

theorem mem_setErase (x y : Nat) (l : List Nat) :
    y ∈ setErase x l ↔ y ∈ l ∧ y ≠ x := by
  simp [setErase]

theorem not_mem_setErase_self (x : Nat) (l : List Nat) : x ∉ setErase x l := by
  simp [mem_setErase]

theorem setErase_of_not_mem (x : Nat) (l : List Nat) (h : x ∉ l) :
    setErase x l = l := by
  unfold setErase
  apply List.filter_eq_self.mpr
  intro a ha
  have hax : a ≠ x := fun e => h (e ▸ ha)
  simp [hax]

theorem setErase_setErase (x : Nat) (l : List Nat) :
    setErase x (setErase x l) = setErase x l :=
  setErase_of_not_mem x _ (not_mem_setErase_self x l)

theorem cancelStaleAsk_cases (s : AutoTraderState) :
    cancelStaleAsk s = (s, []) ∨
    cancelStaleAsk s =
      ({ s with mAskId := 0, mHBidId := 0 }, [Request.cancelOrder s.mAskId]) := by
  unfold cancelStaleAsk
  split
  · exact Or.inr rfl
  · exact Or.inl rfl

theorem cancelStaleBid_cases (s : AutoTraderState) :
    cancelStaleBid s = (s, []) ∨
    cancelStaleBid s =
      ({ s with mBidId := 0, mHAskId := 0 }, [Request.cancelOrder s.mBidId]) := by
  unfold cancelStaleBid
  split
  · exact Or.inr rfl
  · exact Or.inl rfl

theorem tryQuoteSell_cases (s : AutoTraderState) (aP aV : Nat → Nat) :
    tryQuoteSell s aP aV = (s, []) ∨
    tryQuoteSell s aP aV =
      ({ s with
          mBidId := s.mNextMessageId
          mNextMessageId := s.mNextMessageId + 1
          mHAskId := s.mHNextMessageId
          mHNextMessageId := s.mHNextMessageId + 1
          mBidPrice := s.ETFbestbid
          mHAskPrice := aP 0
          mBids := setInsert s.mNextMessageId s.mBids },
       [Request.insertOrder s.mNextMessageId Side.SELL s.ETFbestbid
          (min s.ETFbidvol (aV 0)) Lifespan.GOOD_FOR_DAY]) := by
  unfold tryQuoteSell
  split
  · exact Or.inr rfl
  · exact Or.inl rfl

theorem tryQuoteBuy_cases (s : AutoTraderState) (bP bV : Nat → Nat) :
    tryQuoteBuy s bP bV = (s, []) ∨
    tryQuoteBuy s bP bV =
      ({ s with
          mAskId := s.mNextMessageId
          mNextMessageId := s.mNextMessageId + 1
          mHBidId := s.mHNextMessageId
          mHNextMessageId := s.mHNextMessageId + 1
          mAskPrice := s.ETFbestask
          mHBidPrice := bP 0
          mAsks := setInsert s.mNextMessageId s.mAsks },
       [Request.insertOrder s.mNextMessageId Side.BUY s.ETFbestask
          (min s.ETFaskvol (bV 0)) Lifespan.GOOD_FOR_DAY]) := by
  unfold tryQuoteBuy
  split
  · exact Or.inr rfl
  · exact Or.inl rfl

theorem orderBook_future_eq (s : AutoTraderState) (seq : Nat)
    (aP aV bP bV : Nat → Nat) :
    OrderBookMessageHandler s Instrument.FUTURE seq aP aV bP bV =
      ((tryQuoteBuy (tryQuoteSell (cancelStaleBid (cancelStaleAsk s).1).1 aP aV).1 bP bV).1,
        (cancelStaleAsk s).2 ++ (cancelStaleBid (cancelStaleAsk s).1).2 ++
        (tryQuoteSell (cancelStaleBid (cancelStaleAsk s).1).1 aP aV).2 ++
        (tryQuoteBuy (tryQuoteSell (cancelStaleBid (cancelStaleAsk s).1).1 aP aV).1 bP bV).2) :=
  rfl

theorem orderBook_future_ETFframe (s : AutoTraderState) (seq : Nat)
    (aP aV bP bV : Nat → Nat) :
    (OrderBookMessageHandler s Instrument.FUTURE seq aP aV bP bV).1.ETFbestbid = s.ETFbestbid ∧
    (OrderBookMessageHandler s Instrument.FUTURE seq aP aV bP bV).1.ETFbestask = s.ETFbestask ∧
    (OrderBookMessageHandler s Instrument.FUTURE seq aP aV bP bV).1.ETFbidvol = s.ETFbidvol ∧
    (OrderBookMessageHandler s Instrument.FUTURE seq aP aV bP bV).1.ETFaskvol = s.ETFaskvol := by
  rw [orderBook_future_eq]
  unfold tryQuoteBuy tryQuoteSell cancelStaleBid cancelStaleAsk
  split_ifs <;> exact ⟨rfl, rfl, rfl, rfl⟩

/-- C8 amended: on every ETF (primary) book update the four stored
top-of-book fields are unconditionally overwritten with the update's
top-level values (and nothing is emitted); no top-of-book is stored for
the FUTURE (secondary) instrument — a FUTURE update leaves the stored
top-of-book fields unchanged, the decision logic reading the FUTURE
values directly from the update's arrays. -/
theorem book_store_spec (s : AutoTraderState) (seq : Nat) (aP aV bP bV : Nat → Nat) :
    (OrderBookMessageHandler s Instrument.ETF seq aP aV bP bV =
      ({ s with
          ETFbestbid := bP 0
          ETFbestask := aP 0
          ETFbidvol := bV 0
          ETFaskvol := aV 0 }, [])) ∧
    ((OrderBookMessageHandler s Instrument.FUTURE seq aP aV bP bV).1.ETFbestbid = s.ETFbestbid ∧
      (OrderBookMessageHandler s Instrument.FUTURE seq aP aV bP bV).1.ETFbestask = s.ETFbestask ∧
      (OrderBookMessageHandler s Instrument.FUTURE seq aP aV bP bV).1.ETFbidvol = s.ETFbidvol ∧
      (OrderBookMessageHandler s Instrument.FUTURE seq aP aV bP bV).1.ETFaskvol = s.ETFaskvol) :=
  ⟨rfl, orderBook_future_ETFframe s seq aP aV bP bV⟩

/-- C9: an order-status event whose remaining volume is nonzero leaves the
whole engine state unchanged and emits no request, whatever the reported
fill volume and fees are. -/
theorem nonzero_remaining_noop (s : AutoTraderState)
    (clientOrderId fillVolume remainingVolume : Nat) (fees : Int)
    (h : remainingVolume ≠ 0) :
    OrderStatusMessageHandler s clientOrderId fillVolume remainingVolume fees = (s, []) := by
  simp [OrderStatusMessageHandler, h]

theorem nonzero_remaining_noop_witness :
    (1 : Nat) ≠ 0 ∧
    OrderStatusMessageHandler initState 5 3 1 (-2) = (initState, []) :=
  ⟨by decide, nonzero_remaining_noop initState 5 3 1 (-2) (by decide)⟩

/-- C10: a hedge-filled event whose client order id is tracked in neither
hedge set leaves the whole engine state (in particular the hedge position)
unchanged and emits no request. -/
theorem hedge_filled_untracked_noop (s : AutoTraderState)
    (clientOrderId price volume : Nat)
    (h1 : clientOrderId ∉ s.mHBids) (h2 : clientOrderId ∉ s.mHAsks) :
    HedgeFilledMessageHandler s clientOrderId price volume = (s, []) := by
  simp [HedgeFilledMessageHandler, h1, h2]

theorem hedge_filled_untracked_noop_witness :
    7 ∉ initState.mHBids ∧ 7 ∉ initState.mHAsks ∧
    HedgeFilledMessageHandler initState 7 2100 5 = (initState, []) :=
  ⟨by decide, by decide,
    hedge_filled_untracked_noop initState 7 2100 5 (by decide) (by decide)⟩

/-- C5: on a FUTURE book update with no working bid-side quote id, no
working ask-side hedge id, room in both positions (mHPosition above
-POSITION_LIMIT and mPosition below POSITION_LIMIT) and the cached ETF
best bid strictly above the update's best ask, the engine allocates the
next message id as the new bid-quote id, records price s.ETFbestbid and
hedge price askPrices 0, tracks the id in mBids, emits the corresponding
day-scoped sell insert for min(ETF bid volume, FUTURE ask volume) lots,
and emits no hedge request in that event. -/
theorem sell_quote_opportunity_spec (s : AutoTraderState) (seq : Nat)
    (aP aV bP bV : Nat → Nat)
    (h1 : s.mBidId = 0) (h2 : s.mHAskId = 0)
    (h3 : s.mHPosition > -POSITION_LIMIT) (h4 : s.mPosition < POSITION_LIMIT)
    (h5 : s.ETFbestbid > aP 0) :
    (OrderBookMessageHandler s Instrument.FUTURE seq aP aV bP bV).1.mBidId = s.mNextMessageId ∧
    (OrderBookMessageHandler s Instrument.FUTURE seq aP aV bP bV).1.mBidPrice = s.ETFbestbid ∧
    (OrderBookMessageHandler s Instrument.FUTURE seq aP aV bP bV).1.mHAskPrice = aP 0 ∧
    s.mNextMessageId ∈ (OrderBookMessageHandler s Instrument.FUTURE seq aP aV bP bV).1.mBids ∧
    Request.insertOrder s.mNextMessageId Side.SELL s.ETFbestbid
      (min s.ETFbidvol (aV 0)) Lifespan.GOOD_FOR_DAY
      ∈ (OrderBookMessageHandler s Instrument.FUTURE seq aP aV bP bV).2 ∧
    (∀ req ∈ (OrderBookMessageHandler s Instrument.FUTURE seq aP aV bP bV).2,
      isHedgeOrder req = false) := by
  rw [orderBook_future_eq]
  unfold cancelStaleAsk cancelStaleBid tryQuoteSell tryQuoteBuy
  split_ifs <;> simp_all [mem_setInsert_self, mem_setInsert, isHedgeOrder]

theorem sell_quote_opportunity_spec_witness :
    (scen1State.mBidId = 0 ∧ scen1State.mHAskId = 0 ∧
      scen1State.mHPosition > -POSITION_LIMIT ∧
      scen1State.mPosition < POSITION_LIMIT ∧
      scen1State.ETFbestbid > constArr 2100 0) ∧
    (OrderBookMessageHandler scen1State Instrument.FUTURE 2
        (constArr 2100) (constArr 5) (constArr 2000) (constArr 5)).1.mBidId =
      scen1State.mNextMessageId ∧
    Request.insertOrder scen1State.mNextMessageId Side.SELL scen1State.ETFbestbid
        (min scen1State.ETFbidvol (constArr 5 0)) Lifespan.GOOD_FOR_DAY
      ∈ (OrderBookMessageHandler scen1State Instrument.FUTURE 2
          (constArr 2100) (constArr 5) (constArr 2000) (constArr 5)).2 ∧
    (∀ req ∈ (OrderBookMessageHandler scen1State Instrument.FUTURE 2
        (constArr 2100) (constArr 5) (constArr 2000) (constArr 5)).2,
      isHedgeOrder req = false) := by
  have h := sell_quote_opportunity_spec scen1State 2
    (constArr 2100) (constArr 5) (constArr 2000) (constArr 5)
    (by decide) (by decide) (by decide) (by decide) (by decide)
  exact ⟨⟨by decide, by decide, by decide, by decide, by decide⟩,
    h.1, h.2.2.2.2.1, h.2.2.2.2.2⟩

/-- C2 amended: issuing a cancel for a tracked quote order synchronously
clears that order's identifier slot within the same book event — after
the event the slot holds 0 or a freshly allocated replacement id — while
the cancelled id stays in its tracking set until a zero-remaining status;
consequently a new quote on that side may be inserted in the same event,
before the cancellation is confirmed.  Stated for both sides of the
FUTURE book handler. -/
theorem cancel_synchronous_clear_spec (s : AutoTraderState) (seq : Nat)
    (aP aV bP bV : Nat → Nat) :
    (s.mBidId ≠ 0 → s.ETFbestask ≠ 0 → s.ETFbestask ≠ s.mAskPrice →
      Request.cancelOrder s.mBidId
          ∈ (OrderBookMessageHandler s Instrument.FUTURE seq aP aV bP bV).2 ∧
        ((OrderBookMessageHandler s Instrument.FUTURE seq aP aV bP bV).1.mBidId = 0 ∨
          (OrderBookMessageHandler s Instrument.FUTURE seq aP aV bP bV).1.mBidId =
            s.mNextMessageId) ∧
        (s.mBidId ∈ s.mBids →
          s.mBidId ∈ (OrderBookMessageHandler s Instrument.FUTURE seq aP aV bP bV).1.mBids)) ∧
    (s.mAskId ≠ 0 → s.ETFbestbid ≠ 0 → s.ETFbestbid ≠ s.mBidPrice →
      Request.cancelOrder s.mAskId
          ∈ (OrderBookMessageHandler s Instrument.FUTURE seq aP aV bP bV).2 ∧
        ((OrderBookMessageHandler s Instrument.FUTURE seq aP aV bP bV).1.mAskId = 0 ∨
          (OrderBookMessageHandler s Instrument.FUTURE seq aP aV bP bV).1.mAskId =
            s.mNextMessageId ∨
          (OrderBookMessageHandler s Instrument.FUTURE seq aP aV bP bV).1.mAskId =
            s.mNextMessageId + 1) ∧
        (s.mAskId ∈ s.mAsks →
          s.mAskId ∈ (OrderBookMessageHandler s Instrument.FUTURE seq aP aV bP bV).1.mAsks)) := by
  rw [orderBook_future_eq]
  unfold cancelStaleAsk cancelStaleBid tryQuoteSell tryQuoteBuy
  split_ifs <;> (try simp_all [mem_setInsert_of_mem, mem_setInsert]) <;> tauto

theorem cancel_synchronous_clear_spec_witness :
    (Request.cancelOrder postQuoteState.mBidId
        ∈ (OrderBookMessageHandler postQuoteState Instrument.FUTURE 2
            (constArr 2100) (constArr 5) (constArr 2000) (constArr 5)).2 ∧
      ((OrderBookMessageHandler postQuoteState Instrument.FUTURE 2
            (constArr 2100) (constArr 5) (constArr 2000) (constArr 5)).1.mBidId = 0 ∨
        (OrderBookMessageHandler postQuoteState Instrument.FUTURE 2
            (constArr 2100) (constArr 5) (constArr 2000) (constArr 5)).1.mBidId =
          postQuoteState.mNextMessageId) ∧
      (postQuoteState.mBidId ∈ postQuoteState.mBids →
        postQuoteState.mBidId ∈ (OrderBookMessageHandler postQuoteState Instrument.FUTURE 2
            (constArr 2100) (constArr 5) (constArr 2000) (constArr 5)).1.mBids)) ∧
    (Request.cancelOrder staleAskState.mAskId
        ∈ (OrderBookMessageHandler staleAskState Instrument.FUTURE 2
            (constArr 2100) (constArr 5) (constArr 2000) (constArr 5)).2) :=
  ⟨(cancel_synchronous_clear_spec postQuoteState 2
      (constArr 2100) (constArr 5) (constArr 2000) (constArr 5)).1
      (by decide) (by decide) (by decide),
    ((cancel_synchronous_clear_spec staleAskState 2
      (constArr 2100) (constArr 5) (constArr 2000) (constArr 5)).2
      (by decide) (by decide) (by decide)).1⟩

theorem notInsert_of_cancel (a : Request) (h : isCancelOrder a = true) :
    isInsertOrder a = false := by
  cases a <;> simp_all [isCancelOrder, isInsertOrder]

theorem cancelStaleAsk_out (s : AutoTraderState) :
    ∀ a ∈ (cancelStaleAsk s).2, isCancelOrder a = true := by
  rcases cancelStaleAsk_cases s with h | h <;> rw [h] <;> simp [isCancelOrder]

theorem cancelStaleBid_out (s : AutoTraderState) :
    ∀ a ∈ (cancelStaleBid s).2, isCancelOrder a = true := by
  rcases cancelStaleBid_cases s with h | h <;> rw [h] <;> simp [isCancelOrder]

theorem tryQuoteSell_out (s : AutoTraderState) (aP aV : Nat → Nat) :
    ∀ a ∈ (tryQuoteSell s aP aV).2, isCancelOrder a = false := by
  rcases tryQuoteSell_cases s aP aV with h | h <;> rw [h] <;> simp [isCancelOrder]

theorem tryQuoteBuy_out (s : AutoTraderState) (bP bV : Nat → Nat) :
    ∀ a ∈ (tryQuoteBuy s bP bV).2, isCancelOrder a = false := by
  rcases tryQuoteBuy_cases s bP bV with h | h <;> rw [h] <;> simp [isCancelOrder]

theorem pairwise_not_insert (l : List Request)
    (h : ∀ a ∈ l, isInsertOrder a = false) :
    List.Pairwise (fun a b => isInsertOrder a = true → isCancelOrder b = false) l := by
  induction l with
  | nil => exact List.Pairwise.nil
  | cons x xs ih =>
    refine List.Pairwise.cons (fun b hb hx => ?_)
      (ih fun a ha => h a (List.mem_cons_of_mem _ ha))
    rw [h x (List.mem_cons_self _ _)] at hx
    cases hx

theorem pairwise_not_cancel (l : List Request)
    (h : ∀ a ∈ l, isCancelOrder a = false) :
    List.Pairwise (fun a b => isInsertOrder a = true → isCancelOrder b = false) l := by
  induction l with
  | nil => exact List.Pairwise.nil
  | cons x xs ih =>
    refine List.Pairwise.cons (fun b hb _ => h b (List.mem_cons_of_mem _ hb))
      (ih fun a ha => h a (List.mem_cons_of_mem _ ha))

theorem cancels_before_inserts (A B : List Request)
    (hA : ∀ a ∈ A, isInsertOrder a = false) (hB : ∀ b ∈ B, isCancelOrder b = false) :
    List.Pairwise (fun a b => isInsertOrder a = true → isCancelOrder b = false) (A ++ B) := by
  rw [List.pairwise_append]
  exact ⟨pairwise_not_insert A hA, pairwise_not_cancel B hB,
    fun a ha b hb _ => hB b hb⟩

theorem orderBook_future_pairwise (s : AutoTraderState) (seq : Nat)
    (aP aV bP bV : Nat → Nat) :
    List.Pairwise (fun a b => isInsertOrder a = true → isCancelOrder b = false)
      (OrderBookMessageHandler s Instrument.FUTURE seq aP aV bP bV).2 := by
  rw [orderBook_future_eq]
  have hassoc :
      (cancelStaleAsk s).2 ++ (cancelStaleBid (cancelStaleAsk s).1).2 ++
        (tryQuoteSell (cancelStaleBid (cancelStaleAsk s).1).1 aP aV).2 ++
        (tryQuoteBuy (tryQuoteSell (cancelStaleBid (cancelStaleAsk s).1).1 aP aV).1 bP bV).2 =
      ((cancelStaleAsk s).2 ++ (cancelStaleBid (cancelStaleAsk s).1).2) ++
        ((tryQuoteSell (cancelStaleBid (cancelStaleAsk s).1).1 aP aV).2 ++
          (tryQuoteBuy (tryQuoteSell (cancelStaleBid (cancelStaleAsk s).1).1 aP aV).1 bP bV).2) := by
    simp [List.append_assoc]
  rw [hassoc]
  apply cancels_before_inserts
  · intro a ha
    rcases List.mem_append.mp ha with h | h
    · exact notInsert_of_cancel a (cancelStaleAsk_out s a h)
    · exact notInsert_of_cancel a (cancelStaleBid_out _ a h)
  · intro b hb
    rcases List.mem_append.mp hb with h | h
    · exact tryQuoteSell_out _ aP aV b h
    · exact tryQuoteBuy_out _ bP bV b h

/-- C4 amended: on a FUTURE book update, if a working ask-side order
exists and the cached ETF best bid is nonzero and differs from the
recorded bid-quote price mBidPrice, the engine cancels that ask order
and clears its identifier together with its paired hedge identifier
mHBidId; symmetrically, a working bid-side order is cancelled (clearing
mBidId and mHAskId) when the cached ETF best ask is nonzero and differs
from the recorded ask-quote price mAskPrice.  The trigger compares the
cached primary top of book against the opposite side's recorded quote
price, not the secondary best bid against the order's own basis.  The
cancellation phase runs before quote evaluation: a cancel triggered on
the ask side is the first emitted request, and no insert ever precedes a
cancel in the event's request list. -/
theorem stale_cancel_spec (s : AutoTraderState) (seq : Nat)
    (aP aV bP bV : Nat → Nat) :
    (s.mAskId ≠ 0 → s.ETFbestbid ≠ 0 → s.ETFbestbid ≠ s.mBidPrice →
      cancelStaleAsk s =
          ({ s with mAskId := 0, mHBidId := 0 }, [Request.cancelOrder s.mAskId]) ∧
        (OrderBookMessageHandler s Instrument.FUTURE seq aP aV bP bV).2.head? =
          some (Request.cancelOrder s.mAskId)) ∧
    (s.mBidId ≠ 0 → s.ETFbestask ≠ 0 → s.ETFbestask ≠ s.mAskPrice →
      cancelStaleBid s =
        ({ s with mBidId := 0, mHAskId := 0 }, [Request.cancelOrder s.mBidId])) ∧
    List.Pairwise (fun a b => isInsertOrder a = true → isCancelOrder b = false)
      (OrderBookMessageHandler s Instrument.FUTURE seq aP aV bP bV).2 := by
  refine ⟨fun k1 k2 k3 => ?_, fun k1 k2 k3 => ?_, orderBook_future_pairwise s seq aP aV bP bV⟩
  · have hask : cancelStaleAsk s =
        ({ s with mAskId := 0, mHBidId := 0 }, [Request.cancelOrder s.mAskId]) := by
      unfold cancelStaleAsk
      rw [if_pos ⟨k1, k2, k3⟩]
    refine ⟨hask, ?_⟩
    rw [orderBook_future_eq, hask]
    simp
  · unfold cancelStaleBid
    rw [if_pos ⟨k1, k2, k3⟩]

theorem stale_cancel_spec_witness :
    (cancelStaleAsk staleAskState =
        ({ staleAskState with mAskId := 0, mHBidId := 0 },
          [Request.cancelOrder staleAskState.mAskId]) ∧
      (OrderBookMessageHandler staleAskState Instrument.FUTURE 2
          (constArr 2100) (constArr 5) (constArr 2000) (constArr 5)).2.head? =
        some (Request.cancelOrder staleAskState.mAskId)) ∧
    cancelStaleBid postQuoteState =
      ({ postQuoteState with mBidId := 0, mHAskId := 0 },
        [Request.cancelOrder postQuoteState.mBidId]) :=
  ⟨(stale_cancel_spec staleAskState 2
      (constArr 2100) (constArr 5) (constArr 2000) (constArr 5)).1
      (by decide) (by decide) (by decide),
    (stale_cancel_spec postQuoteState 2
      (constArr 2100) (constArr 5) (constArr 2000) (constArr 5)).2.1
      (by decide) (by decide) (by decide)⟩

theorem clearMatchingId_of_no_match (s : AutoTraderState) (id : Nat)
    (h1 : id ≠ s.mAskId) (h2 : id ≠ s.mBidId) (h3 : id ≠ s.mHAskId) (h4 : id ≠ s.mHBidId) :
    clearMatchingId s id = s := by
  unfold clearMatchingId
  rw [if_neg h1, if_neg h2, if_neg h3, if_neg h4]

theorem orderStatus_zero_eq (s : AutoTraderState) (id fv : Nat) (fees : Int) :
    OrderStatusMessageHandler s id fv 0 fees =
      ({ clearMatchingId s id with
          mAsks := setErase id (clearMatchingId s id).mAsks
          mBids := setErase id (clearMatchingId s id).mBids
          mHAsks := setErase id (clearMatchingId s id).mHAsks
          mHBids := setErase id (clearMatchingId s id).mHBids }, []) :=
  rfl

theorem orderStatus_noop_of_untracked (s : AutoTraderState) (id fv : Nat) (fees : Int)
    (h1 : id ≠ s.mAskId) (h2 : id ≠ s.mBidId) (h3 : id ≠ s.mHAskId) (h4 : id ≠ s.mHBidId)
    (h5 : id ∉ s.mAsks) (h6 : id ∉ s.mBids) (h7 : id ∉ s.mHAsks) (h8 : id ∉ s.mHBids) :
    OrderStatusMessageHandler s id fv 0 fees = (s, []) := by
  rw [orderStatus_zero_eq, clearMatchingId_of_no_match s id h1 h2 h3 h4,
    setErase_of_not_mem _ _ h5, setErase_of_not_mem _ _ h6,
    setErase_of_not_mem _ _ h7, setErase_of_not_mem _ _ h8]

/-- C7 amended: a zero-remaining status clears only the first identifier
slot, in the fixed order mAskId, mBidId, mHAskId, mHBidId, that equals
the reported id (a numerically colliding later slot is left untouched:
the equation below shows mBidId, mHAskId, mHBidId unchanged whenever the
id equals mAskId) and removes the id from all four tracking sets; an id
matching no slot and tracked in no set leaves the state unchanged and
raises no error; and redelivering the same terminal status is a no-op
provided the id no longer equals any of the four slots after the first
delivery — which holds in particular whenever quote-order ids and
hedge-order ids do not numerically collide. -/
theorem terminal_status_spec (s : AutoTraderState) (clientOrderId fillVolume : Nat)
    (fees : Int) :
    (clientOrderId = s.mAskId →
      OrderStatusMessageHandler s clientOrderId fillVolume 0 fees =
        ({ s with
            mAskId := 0
            mAsks := setErase clientOrderId s.mAsks
            mBids := setErase clientOrderId s.mBids
            mHAsks := setErase clientOrderId s.mHAsks
            mHBids := setErase clientOrderId s.mHBids }, [])) ∧
    (clientOrderId ≠ s.mAskId → clientOrderId ≠ s.mBidId →
      clientOrderId ≠ s.mHAskId → clientOrderId ≠ s.mHBidId →
      clientOrderId ∉ s.mAsks → clientOrderId ∉ s.mBids →
      clientOrderId ∉ s.mHAsks → clientOrderId ∉ s.mHBids →
      OrderStatusMessageHandler s clientOrderId fillVolume 0 fees = (s, [])) ∧
    (clientOrderId ≠ (OrderStatusMessageHandler s clientOrderId fillVolume 0 fees).1.mAskId →
      clientOrderId ≠ (OrderStatusMessageHandler s clientOrderId fillVolume 0 fees).1.mBidId →
      clientOrderId ≠ (OrderStatusMessageHandler s clientOrderId fillVolume 0 fees).1.mHAskId →
      clientOrderId ≠ (OrderStatusMessageHandler s clientOrderId fillVolume 0 fees).1.mHBidId →
      OrderStatusMessageHandler
          (OrderStatusMessageHandler s clientOrderId fillVolume 0 fees).1
          clientOrderId fillVolume 0 fees =
        ((OrderStatusMessageHandler s clientOrderId fillVolume 0 fees).1, [])) := by
  refine ⟨fun h => ?_, fun h1 h2 h3 h4 h5 h6 h7 h8 =>
    orderStatus_noop_of_untracked s clientOrderId fillVolume fees h1 h2 h3 h4 h5 h6 h7 h8,
    fun k1 k2 k3 k4 => ?_⟩
  · rw [orderStatus_zero_eq]
    unfold clearMatchingId
    rw [if_pos h]
  · have hA : clientOrderId ∉ (OrderStatusMessageHandler s clientOrderId fillVolume 0 fees).1.mAsks := by
      rw [orderStatus_zero_eq]
      exact not_mem_setErase_self _ _
    have hB : clientOrderId ∉ (OrderStatusMessageHandler s clientOrderId fillVolume 0 fees).1.mBids := by
      rw [orderStatus_zero_eq]
      exact not_mem_setErase_self _ _
    have hC : clientOrderId ∉ (OrderStatusMessageHandler s clientOrderId fillVolume 0 fees).1.mHAsks := by
      rw [orderStatus_zero_eq]
      exact not_mem_setErase_self _ _
    have hD : clientOrderId ∉ (OrderStatusMessageHandler s clientOrderId fillVolume 0 fees).1.mHBids := by
      rw [orderStatus_zero_eq]
      exact not_mem_setErase_self _ _
    exact orderStatus_noop_of_untracked _ clientOrderId fillVolume fees
      k1 k2 k3 k4 hA hB hC hD

theorem terminal_status_spec_witness :
    OrderStatusMessageHandler postQuoteState 5 0 0 0 = (postQuoteState, []) ∧
    OrderStatusMessageHandler (OrderStatusMessageHandler postQuoteState 5 0 0 0).1 5 0 0 0 =
      ((OrderStatusMessageHandler postQuoteState 5 0 0 0).1, []) ∧
    OrderStatusMessageHandler staleAskState 1 0 0 0 =
      ({ staleAskState with
          mAskId := 0
          mAsks := setErase 1 staleAskState.mAsks
          mBids := setErase 1 staleAskState.mBids
          mHAsks := setErase 1 staleAskState.mHAsks
          mHBids := setErase 1 staleAskState.mHBids }, []) :=
  ⟨(terminal_status_spec postQuoteState 5 0 0).2.1 (by decide) (by decide) (by decide)
      (by decide) (by decide) (by decide) (by decide) (by decide),
    (terminal_status_spec postQuoteState 5 0 0).2.2 (by decide) (by decide) (by decide)
      (by decide),
    (terminal_status_spec staleAskState 1 0 0).1 (by decide)⟩

theorem clearMatchingId_sets (s : AutoTraderState) (id : Nat) :
    (clearMatchingId s id).mAsks = s.mAsks ∧ (clearMatchingId s id).mBids = s.mBids ∧
    (clearMatchingId s id).mNextMessageId = s.mNextMessageId := by
  unfold clearMatchingId
  split_ifs <;> exact ⟨rfl, rfl, rfl⟩

theorem quoteSetsInv_init : QuoteSetsInv initState := by
  refine ⟨?_, ?_, ?_⟩ <;> intro x hx <;> simp [initState] at hx

theorem quoteSetsInv_tryQuoteSell (s : AutoTraderState) (aP aV : Nat → Nat)
    (h : QuoteSetsInv s) : QuoteSetsInv (tryQuoteSell s aP aV).1 := by
  obtain ⟨hb, ha, hd⟩ := h
  rcases tryQuoteSell_cases s aP aV with heq | heq <;> rw [heq]
  · exact ⟨hb, ha, hd⟩
  · refine ⟨fun x hx => ?_, fun x hx => ?_, fun x hx => ?_⟩
    · rcases (mem_setInsert _ _ _).1 hx with rfl | hx
      · show s.mNextMessageId < s.mNextMessageId + 1
        omega
      · exact Nat.lt_succ_of_lt (hb x hx)
    · exact Nat.lt_succ_of_lt (ha x hx)
    · rcases (mem_setInsert _ _ _).1 hx with rfl | hx
      · intro hmem
        exact absurd (ha _ hmem) (by omega)
      · exact hd x hx

theorem quoteSetsInv_tryQuoteBuy (s : AutoTraderState) (bP bV : Nat → Nat)
    (h : QuoteSetsInv s) : QuoteSetsInv (tryQuoteBuy s bP bV).1 := by
  obtain ⟨hb, ha, hd⟩ := h
  rcases tryQuoteBuy_cases s bP bV with heq | heq <;> rw [heq]
  · exact ⟨hb, ha, hd⟩
  · refine ⟨fun x hx => ?_, fun x hx => ?_, fun x hx => ?_⟩
    · exact Nat.lt_succ_of_lt (hb x hx)
    · rcases (mem_setInsert _ _ _).1 hx with rfl | hx
      · show s.mNextMessageId < s.mNextMessageId + 1
        omega
      · exact Nat.lt_succ_of_lt (ha x hx)
    · intro hmem
      rcases (mem_setInsert _ _ _).1 hmem with heq2 | hmem2
      · exact absurd (hb x hx) (by omega)
      · exact hd x hx hmem2

theorem quoteSetsInv_orderStatus (s : AutoTraderState) (id fv rv : Nat) (fees : Int)
    (h : QuoteSetsInv s) : QuoteSetsInv (OrderStatusMessageHandler s id fv rv fees).1 := by
  obtain ⟨hb, ha, hd⟩ := h
  by_cases hrv : rv = 0
  · subst hrv
    rw [orderStatus_zero_eq]
    obtain ⟨hA, hB, hN⟩ := clearMatchingId_sets s id
    refine ⟨fun x hx => ?_, fun x hx => ?_, fun x hx => ?_⟩
    · have hx2 := (mem_setErase id x _).1 hx
      rw [hB] at hx2
      show x < (clearMatchingId s id).mNextMessageId
      rw [hN]
      exact hb x hx2.1
    · have hx2 := (mem_setErase id x _).1 hx
      rw [hA] at hx2
      show x < (clearMatchingId s id).mNextMessageId
      rw [hN]
      exact ha x hx2.1
    · have hx2 := (mem_setErase id x _).1 hx
      rw [hB] at hx2
      intro hmem
      have hm2 := (mem_setErase id x _).1 hmem
      rw [hA] at hm2
      exact hd x hx2.1 hm2.1
  · unfold OrderStatusMessageHandler
    rw [if_neg hrv]
    exact ⟨hb, ha, hd⟩

theorem quoteSetsInv_step (s : AutoTraderState) (e : Event) (h : QuoteSetsInv s) :
    QuoteSetsInv (step s e).1 := by
  cases e with
  | orderBook instr seq aP aV bP bV =>
    cases instr with
    | ETF => exact h
    | FUTURE =>
      have h1 : QuoteSetsInv (cancelStaleAsk s).1 := by
        rcases cancelStaleAsk_cases s with heq | heq <;> rw [heq] <;> exact h
      have h2 : QuoteSetsInv (cancelStaleBid (cancelStaleAsk s).1).1 := by
        rcases cancelStaleBid_cases (cancelStaleAsk s).1 with heq | heq <;> rw [heq] <;> exact h1
      exact quoteSetsInv_tryQuoteBuy _ bP bV (quoteSetsInv_tryQuoteSell _ aP aV h2)
  | orderFilled id p v =>
    show QuoteSetsInv (OrderFilledMessageHandler s id p v).1
    unfold OrderFilledMessageHandler
    split_ifs <;> exact h
  | hedgeFilled id p v =>
    show QuoteSetsInv (HedgeFilledMessageHandler s id p v).1
    unfold HedgeFilledMessageHandler
    split_ifs <;> exact h
  | orderStatus id fv rv fees => exact quoteSetsInv_orderStatus s id fv rv fees h
  | errorMessage id =>
    show QuoteSetsInv (ErrorMessageHandler s id).1
    unfold ErrorMessageHandler
    split_ifs with hc
    · exact quoteSetsInv_orderStatus s id 0 0 0 h
    · exact h
  | tradeTicks instr seq aP aV bP bV => exact h

theorem quoteSetsInv_runEvents (evs : List Event) :
    ∀ s, QuoteSetsInv s → QuoteSetsInv (runEvents s evs).1 := by
  induction evs with
  | nil => exact fun s h => h
  | cons e rest ih => exact fun s h => ih (step s e).1 (quoteSetsInv_step s e h)

/-- C3: for every reachable state (any event sequence processed from the
initial state), an order-filled event for an id tracked in mBids
decrements Position by the filled volume and emits exactly one hedge buy
request for the same volume at the recorded hedge ask price (the id
tracked in mHAsks afterwards); an id tracked in mAsks increments Position
by the filled volume and emits exactly one hedge sell request at the
recorded hedge bid price; an id tracked in neither quote set leaves the
state unchanged and emits nothing.  The two tracked cases are exclusive
on reachable states (QuoteSetsInv). -/
theorem order_filled_spec (evs : List Event) (clientOrderId price volume : Nat) :
    (clientOrderId ∈ (runEvents initState evs).1.mBids →
      OrderFilledMessageHandler (runEvents initState evs).1 clientOrderId price volume =
        ({ (runEvents initState evs).1 with
            mPosition := (runEvents initState evs).1.mPosition - (volume : Int)
            mHAsks := setInsert (runEvents initState evs).1.mHAskId
              (runEvents initState evs).1.mHAsks },
         [Request.hedgeOrder (runEvents initState evs).1.mHAskId Side.BUY
            (runEvents initState evs).1.mHAskPrice volume])) ∧
    (clientOrderId ∈ (runEvents initState evs).1.mAsks →
      OrderFilledMessageHandler (runEvents initState evs).1 clientOrderId price volume =
        ({ (runEvents initState evs).1 with
            mPosition := (runEvents initState evs).1.mPosition + (volume : Int)
            mHBids := setInsert (runEvents initState evs).1.mHBidId
              (runEvents initState evs).1.mHBids },
         [Request.hedgeOrder (runEvents initState evs).1.mHBidId Side.SELL
            (runEvents initState evs).1.mHBidPrice volume])) ∧
    (clientOrderId ∉ (runEvents initState evs).1.mBids →
      clientOrderId ∉ (runEvents initState evs).1.mAsks →
      OrderFilledMessageHandler (runEvents initState evs).1 clientOrderId price volume =
        ((runEvents initState evs).1, [])) := by
  have hinv := quoteSetsInv_runEvents evs initState quoteSetsInv_init
  refine ⟨fun hb => ?_, fun ha => ?_, fun hnb hna => ?_⟩
  · unfold OrderFilledMessageHandler
    rw [if_pos hb]
  · have hnb : clientOrderId ∉ (runEvents initState evs).1.mBids :=
      fun hb => hinv.2.2 clientOrderId hb ha
    unfold OrderFilledMessageHandler
    rw [if_neg hnb, if_pos ha]
  · unfold OrderFilledMessageHandler
    rw [if_neg hnb, if_neg hna]

theorem order_filled_spec_witness :
    1 ∈ (runEvents initState quoteEvents).1.mBids ∧
    OrderFilledMessageHandler (runEvents initState quoteEvents).1 1 2200 5 =
      ({ (runEvents initState quoteEvents).1 with
          mPosition := (runEvents initState quoteEvents).1.mPosition - ((5 : Nat) : Int)
          mHAsks := setInsert (runEvents initState quoteEvents).1.mHAskId
            (runEvents initState quoteEvents).1.mHAsks },
       [Request.hedgeOrder (runEvents initState quoteEvents).1.mHAskId Side.BUY
          (runEvents initState quoteEvents).1.mHAskPrice 5]) :=
  ⟨by decide, (order_filled_spec quoteEvents 1 2200 5).1 (by decide)⟩

theorem insertIds_append (l1 l2 : List Request) :
    insertIds (l1 ++ l2) = insertIds l1 ++ insertIds l2 := by
  induction l1 with
  | nil => rfl
  | cons x xs ih => cases x <;> simp [insertIds, ih]

theorem insertIdsOK_comp (s : AutoTraderState) (p q : AutoTraderState × List Request)
    (h1 : InsertIdsOK s p) (h2 : InsertIdsOK p.1 q) :
    InsertIdsOK s (q.1, p.2 ++ q.2) := by
  obtain ⟨m1, b1, w1⟩ := h1
  obtain ⟨m2, b2, w2⟩ := h2
  refine ⟨le_trans m1 m2, ?_, ?_⟩
  · intro id hid
    rw [insertIds_append] at hid
    rcases List.mem_append.mp hid with h | h
    · exact ⟨(b1 id h).1, lt_of_lt_of_le (b1 id h).2 m2⟩
    · exact ⟨le_trans m1 (b2 id h).1, (b2 id h).2⟩
  · show List.Pairwise _ (insertIds (p.2 ++ q.2))
    rw [insertIds_append, List.pairwise_append]
    exact ⟨w1, w2, fun a ha b hb => lt_of_lt_of_le (b1 a ha).2 (b2 b hb).1⟩

theorem insertIdsOK_cancelStaleAsk (s : AutoTraderState) :
    InsertIdsOK s (cancelStaleAsk s) := by
  rcases cancelStaleAsk_cases s with h | h <;> rw [h] <;>
    exact ⟨le_refl _, fun id hid => by simp [insertIds] at hid, List.Pairwise.nil⟩

theorem insertIdsOK_cancelStaleBid (s : AutoTraderState) :
    InsertIdsOK s (cancelStaleBid s) := by
  rcases cancelStaleBid_cases s with h | h <;> rw [h] <;>
    exact ⟨le_refl _, fun id hid => by simp [insertIds] at hid, List.Pairwise.nil⟩

theorem insertIdsOK_tryQuoteSell (s : AutoTraderState) (aP aV : Nat → Nat) :
    InsertIdsOK s (tryQuoteSell s aP aV) := by
  rcases tryQuoteSell_cases s aP aV with h | h <;> rw [h]
  · exact ⟨le_refl _, fun id hid => by simp [insertIds] at hid, List.Pairwise.nil⟩
  · refine ⟨Nat.le_succ _, ?_, by simp [insertIds]⟩
    intro id hid
    have hide : id = s.mNextMessageId := by simpa [insertIds] using hid
    subst hide
    exact ⟨le_refl _, Nat.lt_succ_self _⟩

theorem insertIdsOK_tryQuoteBuy (s : AutoTraderState) (bP bV : Nat → Nat) :
    InsertIdsOK s (tryQuoteBuy s bP bV) := by
  rcases tryQuoteBuy_cases s bP bV with h | h <;> rw [h]
  · exact ⟨le_refl _, fun id hid => by simp [insertIds] at hid, List.Pairwise.nil⟩
  · refine ⟨Nat.le_succ _, ?_, by simp [insertIds]⟩
    intro id hid
    have hide : id = s.mNextMessageId := by simpa [insertIds] using hid
    subst hide
    exact ⟨le_refl _, Nat.lt_succ_self _⟩

theorem insertIdsOK_orderStatus (s : AutoTraderState) (id fv rv : Nat) (fees : Int) :
    InsertIdsOK s (OrderStatusMessageHandler s id fv rv fees) := by
  unfold OrderStatusMessageHandler
  split_ifs
  · refine ⟨?_, fun i hi => by simp [insertIds] at hi, List.Pairwise.nil⟩
    show s.mNextMessageId ≤ (clearMatchingId s id).mNextMessageId
    rw [(clearMatchingId_sets s id).2.2]
  · exact ⟨le_refl _, fun i hi => by simp [insertIds] at hi, List.Pairwise.nil⟩

theorem insertIdsOK_step (s : AutoTraderState) (e : Event) : InsertIdsOK s (step s e) := by
  cases e with
  | orderBook instr seq aP aV bP bV =>
    cases instr with
    | ETF => exact ⟨le_refl _, fun i hi => by simp [insertIds] at hi, List.Pairwise.nil⟩
    | FUTURE =>
      have hc := insertIdsOK_comp s (cancelStaleAsk s) _ (insertIdsOK_cancelStaleAsk s)
        (insertIdsOK_comp _ (cancelStaleBid (cancelStaleAsk s).1) _
          (insertIdsOK_cancelStaleBid _)
          (insertIdsOK_comp _ (tryQuoteSell (cancelStaleBid (cancelStaleAsk s).1).1 aP aV) _
            (insertIdsOK_tryQuoteSell _ aP aV)
            (insertIdsOK_tryQuoteBuy
              (tryQuoteSell (cancelStaleBid (cancelStaleAsk s).1).1 aP aV).1 bP bV)))
      show InsertIdsOK s (OrderBookMessageHandler s Instrument.FUTURE seq aP aV bP bV)
      rw [orderBook_future_eq]
      simpa using hc
  | orderFilled id p v =>
    show InsertIdsOK s (OrderFilledMessageHandler s id p v)
    unfold OrderFilledMessageHandler
    split_ifs <;> exact ⟨le_refl _, fun i hi => by simp [insertIds] at hi, List.Pairwise.nil⟩
  | hedgeFilled id p v =>
    show InsertIdsOK s (HedgeFilledMessageHandler s id p v)
    unfold HedgeFilledMessageHandler
    split_ifs <;> exact ⟨le_refl _, fun i hi => by simp [insertIds] at hi, List.Pairwise.nil⟩
  | orderStatus id fv rv fees => exact insertIdsOK_orderStatus s id fv rv fees
  | errorMessage id =>
    show InsertIdsOK s (ErrorMessageHandler s id)
    unfold ErrorMessageHandler
    split_ifs
    · exact insertIdsOK_orderStatus s id 0 0 0
    · exact ⟨le_refl _, fun i hi => by simp [insertIds] at hi, List.Pairwise.nil⟩
  | tradeTicks instr seq aP aV bP bV =>
    exact ⟨le_refl _, fun i hi => by simp [insertIds] at hi, List.Pairwise.nil⟩

theorem insertIdsOK_runEvents (evs : List Event) : ∀ s, InsertIdsOK s (runEvents s evs) := by
  induction evs with
  | nil => exact fun s => ⟨le_refl _, fun i hi => by simp [insertIds] at hi, List.Pairwise.nil⟩
  | cons e rest ih =>
    intro s
    exact insertIdsOK_comp s (step s e) (runEvents (step s e).1 rest)
      (insertIdsOK_step s e) (ih (step s e).1)

/-- C6 amended: every outbound insert order on the primary venue carries a
fresh unique identifier from the monotonically increasing allocator — over
any event sequence the emitted insert-order ids are strictly increasing,
hence never reused.  Hedge requests, however, are not freshly identified
per outbound request: a quote fill sends its hedge request under the
hedge id stored at quote-placement time (mHAskId for a bid-side fill,
mHBidId for an ask-side fill), so successive partial fills of one quote
reuse the same hedge id. -/
theorem id_allocation_spec (evs : List Event) (s : AutoTraderState)
    (clientOrderId price volume : Nat) :
    List.Pairwise (fun a b => a < b) (insertIds (runEvents initState evs).2) ∧
    (clientOrderId ∈ s.mBids →
      (OrderFilledMessageHandler s clientOrderId price volume).2 =
        [Request.hedgeOrder s.mHAskId Side.BUY s.mHAskPrice volume]) ∧
    (clientOrderId ∉ s.mBids → clientOrderId ∈ s.mAsks →
      (OrderFilledMessageHandler s clientOrderId price volume).2 =
        [Request.hedgeOrder s.mHBidId Side.SELL s.mHBidPrice volume]) := by
  refine ⟨(insertIdsOK_runEvents evs initState).2.2, fun hb => ?_, fun hnb ha => ?_⟩
  · unfold OrderFilledMessageHandler
    rw [if_pos hb]
  · unfold OrderFilledMessageHandler
    rw [if_neg hnb, if_pos ha]

theorem id_allocation_spec_witness :
    List.Pairwise (fun a b => a < b) (insertIds (runEvents initState quoteEvents).2) ∧
    (OrderFilledMessageHandler postQuoteState 1 2200 5).2 =
      [Request.hedgeOrder postQuoteState.mHAskId Side.BUY postQuoteState.mHAskPrice 5] ∧
    (OrderFilledMessageHandler staleAskState 1 2150 5).2 =
      [Request.hedgeOrder staleAskState.mHBidId Side.SELL staleAskState.mHBidPrice 5] :=
  ⟨(id_allocation_spec quoteEvents postQuoteState 1 2200 5).1,
    (id_allocation_spec quoteEvents postQuoteState 1 2200 5).2.1 (by decide),
    (id_allocation_spec quoteEvents staleAskState 1 2150 5).2.2 (by decide) (by decide)⟩

/-- C1: the limit invariant fails on the code.  From zero positions, an ETF
book (bid 2200 x 200) followed by a FUTURE book (ask 2100 x 200) makes the
engine sell 200 lots of ETF (the quote volume is min of the two volumes,
never capped against POSITION_LIMIT, and the sell branch checks
mPosition < POSITION_LIMIT rather than mPosition > -POSITION_LIMIT); the
subsequent 200-lot fill of that order is applied and drives Position to
-200, outside the open interval (-100, 100). -/
theorem position_limit_breach :
    (runEvents initState breachEvents).1.mPosition = -200 ∧
    ¬ (-POSITION_LIMIT < (runEvents initState breachEvents).1.mPosition ∧
        (runEvents initState breachEvents).1.mPosition < POSITION_LIMIT) := by
  decide

/-- C2 counterexample: after quoteEvents the engine tracks sell quote 1
(mBidId = 1, 1 in mBids).  Redelivering the same FUTURE book makes the
handler cancel order 1 and, in that very same event, synchronously clear
the slot and insert a new sell quote with id 2 — while order 1 is still
cancelled-but-unconfirmed (no zero-remaining status was processed, 1 is
still in mBids).  This refutes both halves of the claim at a concrete
input. -/
theorem cancel_not_asynchronous_cex :
    ((runEvents initState quoteEvents).1.mBidId = 1 ∧
      1 ∈ (runEvents initState quoteEvents).1.mBids) ∧
    (step (runEvents initState quoteEvents).1 evFUTquote).2 =
      [Request.cancelOrder 1,
       Request.insertOrder 2 Side.SELL 2200 5 Lifespan.GOOD_FOR_DAY] ∧
    (step (runEvents initState quoteEvents).1 evFUTquote).1.mBidId = 2 ∧
    1 ∈ (step (runEvents initState quoteEvents).1 evFUTquote).1.mBids := by
  decide

/-- C4 counterexample: after askQuoteEvents a working ask-side order exists
(mAskId = 1, placed at mAskPrice = 2150 against recorded secondary bid
mHBidPrice = 2160).  The next FUTURE update carries best bid 2180, which is
nonzero and differs from both recorded prices, yet the handler emits no
request at all and leaves the state unchanged: the code's cancel condition
reads the cached ETF best bid (here 0) against mBidPrice, not the
secondary best bid against the ask order's basis. -/
theorem stale_cancel_trigger_cex :
    ((runEvents initState askQuoteEvents).1.mAskId = 1 ∧
      (runEvents initState askQuoteEvents).1.mAskPrice = 2150 ∧
      (runEvents initState askQuoteEvents).1.mHBidPrice = 2160 ∧
      (runEvents initState askQuoteEvents).1.ETFbestbid = 0) ∧
    ((2180 : Nat) ≠ 0 ∧ (2180 : Nat) ≠ 2150 ∧ (2180 : Nat) ≠ 2160) ∧
    step (runEvents initState askQuoteEvents).1 evFUTbid2180 =
      ((runEvents initState askQuoteEvents).1, []) := by
  decide

/-- C6 counterexample: after quoteEvents places sell quote 1 (hedge id 1
allocated then), two partial fills of order 1 (2 lots then 3 lots) each
send a hedge request, and both hedge requests carry the same identifier 1
— the hedge id recorded at quote time is reused, not freshly allocated
per outbound request, with no terminal status for it in between. -/
theorem hedge_id_reuse_cex :
    hedgeIds (runEvents initState
      (quoteEvents ++ [Event.orderFilled 1 2200 2, Event.orderFilled 1 2200 3])).2 =
      [1, 1] := by
  decide

/-- C7 counterexample: askQuoteEvents allocates order id 1 and hedge id 1
(the two counters run independently, so the numeric id collides).  The
first zero-remaining status for id 1 clears only mAskId — mHBidId still
equals 1, although it also "equals the reported id" — and redelivering
the same terminal status is then not a no-op: it clears mHBidId, changing
the state. -/
theorem terminal_status_not_idempotent_cex :
    ((runEvents initState (askQuoteEvents ++ [Event.orderStatus 1 0 0 0])).1.mAskId = 0 ∧
      (runEvents initState (askQuoteEvents ++ [Event.orderStatus 1 0 0 0])).1.mHBidId = 1 ∧
      1 ∉ (runEvents initState (askQuoteEvents ++ [Event.orderStatus 1 0 0 0])).1.mAsks) ∧
    (step (runEvents initState (askQuoteEvents ++ [Event.orderStatus 1 0 0 0])).1
        (Event.orderStatus 1 0 0 0)).1.mHBidId = 0 ∧
    (step (runEvents initState (askQuoteEvents ++ [Event.orderStatus 1 0 0 0])).1
        (Event.orderStatus 1 0 0 0)).1 ≠
      (runEvents initState (askQuoteEvents ++ [Event.orderStatus 1 0 0 0])).1 := by
  decide

/-- C8 counterexample: a FUTURE book update carrying best ask 999 x 7 is
processed from the initial state and leaves every member variable of the
engine unchanged (and emits nothing): no stored top-of-book for the
secondary instrument exists, so nothing is overwritten with the update's
top-level values. -/
theorem future_book_not_stored_cex :
    step initState evFUTodd = (initState, []) ∧
    initState.ETFbestask ≠ 999 ∧ initState.ETFaskvol ≠ 7 := by
  decide

end RTG
